import Mathlib

/-!
Verification of the enterprise-data-guard risk engine.

Shallow embedding of the risk-scoring and anomaly-detection pipeline:
severity classification and the retrying write paths from
backend/documents/access_log.py, rule detectors and the risk aggregator from
backend/anomaly/analyzer.py, and the outlier-model lifecycle from
backend/anomaly/ml_models.py.

Numeric risk scores are rationals, timestamps are minutes since the epoch,
and the SQLite tables are in-memory lists of rows.  The sklearn estimators
(IsolationForest, StandardScaler) are external to the repository; their
fitted parameters appear as opaque function fields of TrainedModel, while
everything the repository computes around them (feature construction, the
feature-name check that scaler transform performs, thresholds, clamps,
control flow) is embedded from the source.
-/

namespace DataGuard

/-! ## Severity classification (documents/access_log.py, create_alert) -/

/-- Severity levels attached to alerts. -/
inductive Severity
  | low
  | medium
  | high
  | critical
  deriving DecidableEq, Repr

/-- Severity classification from create_alert in backend/documents/access_log.py
(lines 96-102): a chain of first-match-wins tiers over alert type and risk score. -/
def severity (alertType : String) (riskScore : ℚ) : Severity :=
  if alertType = "data_leak_attempt" ∨ alertType = "data_sabotage_attempt"
      ∨ (0.8 : ℚ) ≤ riskScore then Severity.critical
  else if alertType = "document_tampering" ∨ alertType = "unauthorized_access"
      ∨ (0.6 : ℚ) ≤ riskScore then Severity.high
  else if (0.4 : ℚ) ≤ riskScore then Severity.medium
  else Severity.low

/-! ## List helpers shared by the embedded queries -/

/-- Distinct values of a list in first-occurrence order, as pandas unique
and SQL GROUP BY (grouped in scan order) expose them. -/
def uniqueFirst {α : Type} [DecidableEq α] (xs : List α) : List α :=
  xs.foldl (fun acc x => if x ∈ acc then acc else acc ++ [x]) []

/-- Number of occurrences of a value in a list. -/
def countOccs {α : Type} [DecidableEq α] (xs : List α) (x : α) : Nat :=
  (xs.filter (fun y => y = x)).length

/-- Per-value occurrence counts in first-occurrence order, as produced by
grouping a scan of the rows. -/
def groupCounts {α : Type} [DecidableEq α] (xs : List α) : List (α × Nat) :=
  (uniqueFirst xs).map (fun a => (a, countOccs xs a))

/-- Insertion step of an ascending sort on naturals. -/
def insertAsc (x : Nat) : List Nat → List Nat
  | [] => [x]
  | y :: ys => if x ≤ y then x :: y :: ys else y :: insertAsc x ys

/-- Ascending sort on naturals (pandas mode returns its values sorted). -/
def sortAsc (xs : List Nat) : List Nat :=
  xs.foldr insertAsc []

/-- Insertion step of a stable count-descending sort on grouped counts. -/
def insertByCountDesc {α : Type} (p : α × Nat) :
    List (α × Nat) → List (α × Nat)
  | [] => [p]
  | q :: qs => if q.2 < p.2 then p :: q :: qs else q :: insertByCountDesc p qs

/-- Stable count-descending sort, as pandas value_counts orders its result. -/
def sortByCountDesc {α : Type} (ps : List (α × Nat)) : List (α × Nat) :=
  ps.foldl (fun acc p => insertByCountDesc p acc) []

/-! ## Data model: the SQLite tables -/

/-- Row of the users table (the columns the engine reads). -/
structure UserRow where
  id : Nat
  username : String
  department : String
  deriving DecidableEq, Repr

/-- Row of the documents table (the columns the engine reads). -/
structure DocRow where
  id : Nat
  name : String
  department : String
  deriving DecidableEq, Repr

/-- Row of the access_logs table. -/
structure LogRow where
  user_id : Nat
  doc_id : Option Nat
  document_name : String
  action : String
  timestamp : Nat
  anomaly_flag : Bool
  risk_score : ℚ
  user_department : String
  document_department : Option String
  deriving DecidableEq, Repr

/-- The database state read by the risk engine. -/
structure DB where
  users : List UserRow
  documents : List DocRow
  access_logs : List LogRow
  deriving Repr

/-- Insertion step of a timestamp-descending sort on log rows. -/
def insertDesc (l : LogRow) : List LogRow → List LogRow
  | [] => [l]
  | x :: xs => if x.timestamp < l.timestamp then l :: x :: xs else x :: insertDesc l xs

/-- ORDER BY timestamp DESC over the access_logs table. -/
def sortByTimestampDesc (logs : List LogRow) : List LogRow :=
  logs.foldr insertDesc []

/-- An access_logs row joined with the users table, as returned by
get_access_logs (SELECT al dot star, u.username, u.department with an inner
join on user id). -/
structure JoinedLog where
  log : LogRow
  username : String
  department : String
  deriving DecidableEq, Repr

/-- get_access_logs from backend/documents/access_log.py with only the limit
argument, as the analyzer calls it: join users, order by timestamp
descending, take the limit. -/
def get_access_logs (db : DB) (limit : Nat) : List JoinedLog :=
  ((sortByTimestampDesc db.access_logs).filterMap (fun l =>
    (db.users.find? (fun u => u.id = l.user_id)).map (fun u =>
      { log := l, username := u.username, department := u.department }))).take limit

/-! ## Timestamp handling

Stored timestamps are minutes since the epoch.  The analyzer treats stored
values as UTC and converts to IST (UTC+05:30 = 330 minutes) before taking
hour, date and day of week, mirroring the pandas tz conversion chain. -/

/-- Shift a timestamp from UTC to IST, in minutes. -/
def istShift (t : Nat) : Nat := t + 330

/-- Hour of day after IST conversion. -/
def hourOf (t : Nat) : Nat := istShift t % 1440 / 60

/-- Calendar day index after IST conversion. -/
def dateOf (t : Nat) : Nat := istShift t / 1440

/-- Day of week after IST conversion, Monday = 0 (the epoch day was a
Thursday, hence the offset 3). -/
def dowOf (t : Nat) : Nat := (dateOf t + 3) % 7

/-! ## Baseline (analyzer.get_user_behavior_baseline) -/

/-- Per-user behavioral baseline. -/
structure Baseline where
  avg_daily_accesses : ℚ
  common_hours : List Nat
  common_actions : List (String × Nat)
  avg_risk_score : ℚ
  deriving DecidableEq, Repr

/-- Hours attaining the maximal frequency, sorted ascending, as pandas mode
returns them. -/
def modeHours (hs : List Nat) : List Nat :=
  let m := ((uniqueFirst hs).map (countOccs hs)).foldr max 0
  sortAsc ((uniqueFirst hs).filter (fun h => countOccs hs h = m))

/-- get_user_behavior_baseline from backend/anomaly/analyzer.py: the 100 most
recent rows of the user, empty history giving an empty dict (here none). -/
def get_user_behavior_baseline (db : DB) (uid : Nat) : Option Baseline :=
  let logs := (sortByTimestampDesc
    (db.access_logs.filter (fun l => l.user_id = uid))).take 100
  if logs.isEmpty then none
  else some {
    avg_daily_accesses :=
      (logs.length : ℚ) /
        (max 1 (uniqueFirst (logs.map (fun l => dateOf l.timestamp))).length : ℚ)
    common_hours := modeHours (logs.map (fun l => hourOf l.timestamp))
    common_actions := sortByCountDesc (groupCounts (logs.map (fun l => l.action)))
    avg_risk_score := (logs.map (fun l => l.risk_score)).sum / (logs.length : ℚ) }

/-! ## Bulk-operation detector (analyzer.detect_bulk_operations) -/

/-- Result dict of detect_bulk_operations. -/
structure BulkResult where
  bulk_detected : Bool
  activities : List (String × Nat)
  risk_factors : List String
  risk_score : ℚ
  deriving DecidableEq, Repr

/-- Per-action bulk thresholds; anything outside the table defaults to 15. -/
def bulkThreshold (action : String) : Nat :=
  if action = "read" then 20
  else if action = "upload" then 10
  else if action = "delete" then 5
  else 15

/-- The human-readable factor string appended per triggered action type. -/
def bulkFactorString (count : Nat) (action : String) (window : Nat) : String :=
  toString count ++ " " ++ action ++ " operations in " ++ toString window ++ " minutes"

/-! The window filter of detect_bulk_operations is a TEXT comparison in the
source: stored rows are stamped by get_current_ist_timestamp with the
strftime format of date, a space, and time, while the query binds
since_time.isoformat(), which separates date and time with the letter T and
appends microseconds and the +05:30 offset.  The timestamp column holds
neither value as a number, so SQLite compares the two strings with binary
collation.  The embedding renders both formats over the minute-count model
(the calendar date collapsed to a fixed-width day index, which preserves
the lexicographic behavior of the real fixed-width date) and compares them
character by character. -/

/-- Zero-pad a numeral to a fixed width, as the strftime fields are. -/
def padNum (width n : Nat) : String :=
  String.mk (List.replicate (width - (toString n).length) '0') ++ toString n

/-- The fixed-width date prefix shared by both renderings. -/
def dateString (t : Nat) : String := padNum 8 (t / 1440)

/-- The time-of-day part shared by both renderings, seconds always 00 at
minute granularity. -/
def timeString (t : Nat) : String :=
  padNum 2 (t % 1440 / 60) ++ ":" ++ padNum 2 (t % 60) ++ ":00"

/-- The value the rows store: strftime with a space between date and
time. -/
def storedTimestampString (t : Nat) : String :=
  dateString t ++ " " ++ timeString t

/-- The value the query binds: isoformat with the letter T between date and
time, microseconds and the IST offset. -/
def isoTimestampString (t : Nat) : String :=
  dateString t ++ "T" ++ timeString t ++ ".000000+05:30"

/-- Lexicographic comparison of char lists, the binary collation SQLite
applies to TEXT operands. -/
def charListLe : List Char → List Char → Bool
  | [], _ => true
  | _ :: _, [] => false
  | a :: as, b :: bs =>
    if a < b then true
    else if b < a then false
    else charListLe as bs

/-- Lexicographic string comparison. -/
def strLe (a b : String) : Bool := charListLe a.data b.data

/-- Per-action counts of the user selected by the window query of
detect_bulk_operations: the GROUP BY action over rows whose stored
timestamp string compares at least the isoformat rendering of since_time
under text collation. -/
def bulkActivities (db : DB) (uid : Nat) (now window : Nat) : List (String × Nat) :=
  groupCounts ((db.access_logs.filter
    (fun l => l.user_id = uid ∧
      strLe (isoTimestampString (now - window)) (storedTimestampString l.timestamp))).map
    (fun l => l.action))

/-- The action groups whose count meets or exceeds the threshold: the
iterations of the detect_bulk_operations loop that fire. -/
def bulkHits (db : DB) (uid : Nat) (now window : Nat) : List (String × Nat) :=
  (bulkActivities db uid now window).filter (fun p => bulkThreshold p.1 ≤ p.2)

/-- detect_bulk_operations from backend/anomaly/analyzer.py. -/
def detect_bulk_operations (db : DB) (uid : Nat) (now : Nat)
    (window : Nat := 30) : BulkResult :=
  { bulk_detected := !(bulkHits db uid now window).isEmpty
    activities := bulkActivities db uid now window
    risk_factors := (bulkHits db uid now window).map
      (fun p => bulkFactorString p.2 p.1 window)
    risk_score := if (bulkHits db uid now window).isEmpty then 0 else (0.8 : ℚ) }

/-! ## Cross-department violation detector
(analyzer.check_department_access_violations) -/

/-- check_department_access_violations from backend/anomaly/analyzer.py:
rows of the user whose joined document department exists and differs from the
home department, most recent first, capped at 10; unknown user gives []. -/
def check_department_access_violations (db : DB) (uid : Nat) : List LogRow :=
  match db.users.find? (fun u => u.id = uid) with
  | none => []
  | some u =>
    ((sortByTimestampDesc (db.access_logs.filter (fun l => l.user_id = uid))).filter
      (fun l =>
        match l.doc_id.bind (fun d => db.documents.find? (fun doc => doc.id = d)) with
        | some doc => doc.department ≠ u.department
        | none => false)).take 10

/-! ## Risk aggregator (analyzer.generate_risk_report) -/

/-- The risk report dict. -/
structure RiskReport where
  user_id : Nat
  overall_risk_score : ℚ
  risk_factors : List String
  baseline : Option Baseline
  bulk_operations : BulkResult
  department_violations : List LogRow
  timestamp : Nat
  deriving DecidableEq, Repr

/-- The dict-get with default 0 that generate_risk_report applies to the
avg_risk_score entry of the baseline. -/
def baselineAvgRisk (b : Option Baseline) : ℚ :=
  match b with
  | some bl => bl.avg_risk_score
  | none => 0

/-- generate_risk_report from backend/anomaly/analyzer.py: additive risk with
a final cap at 1, bundling baseline, bulk result and violations, stamped with
the generation instant. -/
def generate_risk_report (db : DB) (uid : Nat) (now : Nat) : RiskReport :=
  let baseline := get_user_behavior_baseline db uid
  let bulk_ops := detect_bulk_operations db uid now 30
  let violations := check_department_access_violations db uid
  let factors1 := if bulk_ops.bulk_detected then bulk_ops.risk_factors else []
  let risk1 : ℚ := if bulk_ops.bulk_detected then bulk_ops.risk_score else 0
  let factors2 := if violations.isEmpty then []
    else [toString violations.length ++ " cross-department access violations"]
  let risk2 : ℚ := if violations.isEmpty then 0
    else (violations.length : ℚ) * (0.2 : ℚ)
  let factors3 := if (0.5 : ℚ) < baselineAvgRisk baseline
    then ["Consistently high individual risk scores"] else []
  let risk3 : ℚ := if (0.5 : ℚ) < baselineAvgRisk baseline then (0.3 : ℚ) else 0
  { user_id := uid
    overall_risk_score := min 1 (risk1 + risk2 + risk3)
    risk_factors := factors1 ++ factors2 ++ factors3
    baseline := baseline
    bulk_operations := bulk_ops
    department_violations := violations
    timestamp := now }

/-! ## Outlier model (anomaly/ml_models.py) -/

/-- A raw access-log dict as handed to the ML layer: the training rows come
from get_access_logs (so they carry both a joined department and the stored
user_department), the inference row built by analyze_access_pattern carries
only a department.  A none timestamp stands for an unparseable one. -/
structure RawLog where
  user_id : Nat
  action : String
  timestamp : Option Nat
  department : Option String
  user_department : Option String
  deriving DecidableEq, Repr

/-- A feature frame: column names plus one numeric row per surviving log. -/
structure FeatureFrame where
  cols : List String
  rows : List (List ℚ)
  deriving DecidableEq, Repr

/-- The fixed leading feature columns of prepare_features. -/
def featureBaseCols : List String :=
  ["user_id", "hour", "day_of_week", "dept_mismatch"]

/-- The department-mismatch indicator: compares the two department fields
when both are present, else 0 (the frame only has the column pair when the
input dicts carry both keys, which is uniform per call site). -/
def deptMismatch (l : RawLog) : ℚ :=
  match l.department, l.user_department with
  | some d, some ud => if d = ud then 0 else 1
  | _, _ => 0

/-- prepare_features from backend/anomaly/ml_models.py: drop rows with
unparseable timestamps, derive hour and day of week after IST conversion,
materialize one binary action indicator column per distinct action value of
THIS batch (in first-occurrence order), and the mismatch indicator. -/
def prepare_features (logs : List RawLog) : FeatureFrame :=
  let parsed := logs.filter (fun l => l.timestamp.isSome)
  if parsed.isEmpty then { cols := [], rows := [] }
  else
    let vocab := uniqueFirst (parsed.map (fun l => l.action))
    { cols := featureBaseCols ++ vocab.map (fun a => "action_" ++ a)
      rows := parsed.map (fun l =>
        let t := l.timestamp.getD 0
        [(l.user_id : ℚ), (hourOf t : ℚ), (dowOf t : ℚ), deptMismatch l]
          ++ vocab.map (fun a => if l.action = a then (1 : ℚ) else 0)) }

/-- The fitted state of the detector.  The scaler statistics and the forest
are sklearn objects; they enter the embedding as opaque functions, while the
feature-column names the scaler was fitted on are kept explicitly because
its transform validates them. -/
structure TrainedModel where
  featureCols : List String
  scale : List ℚ → List ℚ
  decision : List ℚ → ℚ
  isOutlier : List ℚ → Bool

/-- The AnomalyDetector instance state: is_trained is the presence of the
trained component; persisted mirrors the pickled artifacts under models/. -/
structure DetectorState where
  trained : Option TrainedModel
  persisted : Option TrainedModel

/-- Outcome signalled by train. -/
inductive TrainOutcome
  | insufficientData
  | trainedOk
  deriving DecidableEq, Repr

/-- load_models: restore the pickled artifacts when present, otherwise leave
the state untouched (missing artifacts are not an error). -/
def load_models (s : DetectorState) : DetectorState :=
  match s.persisted with
  | some m => { s with trained := some m }
  | none => s

/-- The anomaly-score transform of predict_anomaly:
max(0, min(1, (0.5 - score) / 1.0)). -/
def riskTransform (d : ℚ) : ℚ := max 0 (min 1 ((0.5 - d) / 1.0))

/-- The message of the exception scaler transform raises when the feature
names of the frame differ from those seen at fit time. -/
def featureMismatchMsg : String :=
  "The feature names should match those that were passed during fit"

/-- train from backend/anomaly/ml_models.py.  fitScaler and fitForest stand
for the sklearn fitting calls; everything else is the repository code: below
10 extracted feature rows nothing is touched and insufficient data is
signalled, otherwise the fitted model is installed and persisted. -/
def train (fitScaler : FeatureFrame → (List ℚ → List ℚ))
    (fitForest : List (List ℚ) → ((List ℚ → ℚ) × (List ℚ → Bool)))
    (s : DetectorState) (logs : List RawLog) : DetectorState × TrainOutcome :=
  let fs := prepare_features logs
  if fs.rows.isEmpty ∨ fs.rows.length < 10 then (s, TrainOutcome.insufficientData)
  else
    let sc := fitScaler fs
    let fitted := fitForest (fs.rows.map sc)
    let m : TrainedModel :=
      { featureCols := fs.cols, scale := sc
        decision := fitted.1, isOutlier := fitted.2 }
    ({ trained := some m, persisted := some m }, TrainOutcome.trainedOk)

/-- predict_anomaly from backend/anomaly/ml_models.py: try to restore an
untrained model, answer (false, 0) when still untrained or when the single
row is dropped, otherwise run scaler transform (which raises on a feature
column mismatch) and the forest, clamping the score through riskTransform. -/
def predict_anomaly (s : DetectorState) (log : RawLog) :
    DetectorState × Except String (Bool × ℚ) :=
  let s1 := match s.trained with
    | some _ => s
    | none => load_models s
  match s1.trained with
  | none => (s1, Except.ok (false, 0))
  | some m =>
    let fs := prepare_features [log]
    match fs.rows with
    | [] => (s1, Except.ok (false, 0))
    | r :: _ =>
      if fs.cols = m.featureCols then
        let x := m.scale r
        (s1, Except.ok (m.isOutlier x, riskTransform (m.decision x)))
      else (s1, Except.error featureMismatchMsg)

/-! ## Scoring entry point (analyzer.analyze_access_pattern) -/

/-- Rebuild the dict shape that get_access_logs rows have when handed to the
ML layer. -/
def joinedToRaw (j : JoinedLog) : RawLog :=
  { user_id := j.log.user_id
    action := j.log.action
    timestamp := some j.log.timestamp
    department := some j.department
    user_department := some j.log.user_department }

/-- analyze_access_pattern from backend/anomaly/analyzer.py: fetch up to 1000
recent rows, bail out with score 0 below 50 rows, train on demand, score the
current event (whose dict carries the department or the literal Unknown). -/
def analyze_access_pattern (fitScaler : FeatureFrame → (List ℚ → List ℚ))
    (fitForest : List (List ℚ) → ((List ℚ → ℚ) × (List ℚ → Bool)))
    (db : DB) (s : DetectorState) (uid : Nat) (action : String)
    (department : Option String) (now : Nat) :
    DetectorState × Except String ℚ :=
  let recent := get_access_logs db 1000
  if recent.length < 50 then (s, Except.ok 0)
  else
    let s1 := match s.trained with
      | some _ => s
      | none => (train fitScaler fitForest s (recent.map joinedToRaw)).1
    let current : RawLog :=
      { user_id := uid, action := action, timestamp := some now
        department := some (department.getD "Unknown"), user_department := none }
    let out := predict_anomaly s1 current
    (out.1, out.2.map (fun p => p.2))

/-! ## Retrying write paths (documents/access_log.py) -/

/-- Outcome of one attempted database write: success with a row id, the
locked OperationalError, or some other OperationalError. -/
inductive DbAttempt
  | ok (rowId : Nat)
  | locked
  | otherError (msg : String)
  deriving DecidableEq, Repr

/-- Observable outcome of a write path: the value returned or the exception
raised, the backoff delays slept, and the lines appended to the fallback
log file. -/
structure WriteOutcome where
  result : Except String Nat
  sleeps : List ℚ
  fallbackLines : List String
  deriving Repr

/-- The retry loop shared verbatim by log_access and create_alert, iterating
over the attempt indices of range(3): a locked error strictly before the last
attempt sleeps 0.1 times 2 to the attempt index and retries; otherwise the
fallback line is appended and the exception is re-raised. -/
def runWriteLoop (attempts : Nat → DbAttempt) (fallbackLine : String) :
    List Nat → List ℚ → WriteOutcome
  | [], sleeps =>
    { result := Except.error "loop exhausted", sleeps := sleeps, fallbackLines := [] }
  | attempt :: rest, sleeps =>
    match attempts attempt with
    | DbAttempt.ok id =>
      { result := Except.ok id, sleeps := sleeps, fallbackLines := [] }
    | DbAttempt.locked =>
      if attempt < 2 then
        runWriteLoop attempts fallbackLine rest (sleeps ++ [(0.1 : ℚ) * 2 ^ attempt])
      else
        { result := Except.error "database is locked", sleeps := sleeps
          fallbackLines := [fallbackLine] }
    | DbAttempt.otherError msg =>
      { result := Except.error msg, sleeps := sleeps
        fallbackLines := [fallbackLine] }

/-- Run the three-attempt retry loop over range(3). -/
def runWrite (attempts : Nat → DbAttempt) (fallbackLine : String) : WriteOutcome :=
  runWriteLoop attempts fallbackLine [0, 1, 2] []

/-- The line log_access appends to access_logs_fallback.log. -/
def logAccessFallbackLine (now uid : Nat) (action docName : String) : String :=
  toString now ++ ": User " ++ toString uid ++ " - " ++ action ++ " on " ++ docName

/-- The write path of log_access from backend/documents/access_log.py. -/
def log_access_write (attempts : Nat → DbAttempt) (uid : Nat)
    (action docName : String) (now : Nat) : WriteOutcome :=
  runWrite attempts (logAccessFallbackLine now uid action docName)

/-- The line create_alert appends to alerts_fallback.log. -/
def createAlertFallbackLine (now uid : Nat) (alertType desc : String) : String :=
  toString now ++ ": Alert " ++ alertType ++ " for user " ++ toString uid ++ " - " ++ desc

/-- The write path of create_alert from backend/documents/access_log.py. -/
def create_alert_write (attempts : Nat → DbAttempt) (uid : Nat)
    (alertType desc : String) (now : Nat) : WriteOutcome :=
  runWrite attempts (createAlertFallbackLine now uid alertType desc)

/-- A write-contention trace where every attempt hits the locked error. -/
def alwaysLocked : Nat → DbAttempt := fun _ => DbAttempt.locked

/-! ## Concrete scenario fixtures -/

/-- A log row template used by the concrete scenarios. -/
def mkLog (uid : Nat) (action : String) (t : Nat) (risk : ℚ) : LogRow :=
  { user_id := uid, doc_id := none, document_name := "doc", action := action
    timestamp := t, anomaly_flag := false, risk_score := risk
    user_department := "HR", document_department := none }

/-- Scenario database for the risk-aggregation claim: one user whose two
historical rows average a risk of 0.6, far outside the bulk window. -/
def dbAgg : DB :=
  { users := [{ id := 1, username := "alice", department := "HR" }]
    documents := []
    access_logs := [mkLog 1 "read" 0 (0.5 : ℚ), mkLog 1 "read" 1 (0.7 : ℚ)] }

/-- Scenario database with 25 read rows of user 1 stamped ten minutes
before the instant 10000, hence inside the trailing 30-minute window and on
the same calendar day as its start. -/
def dbReads25 : DB :=
  { users := [{ id := 1, username := "alice", department := "HR" }]
    documents := []
    access_logs := List.replicate 25 (mkLog 1 "read" 9990 0) }

/-- Scenario database with 25 read rows of user 1 stamped five minutes
after a midnight, scored at the instant 10090 whose 30-minute window starts
on the previous calendar day. -/
def dbReadsMidnight : DB :=
  { users := [{ id := 1, username := "alice", department := "HR" }]
    documents := []
    access_logs := List.replicate 25 (mkLog 1 "read" 10085 0) }

/-- The untrained, artifact-free detector. -/
def freshDetector : DetectorState := { trained := none, persisted := none }

/-- A store with no rows at all. -/
def emptyDB : DB := { users := [], documents := [], access_logs := [] }

/-- A raw inference event with a parseable timestamp. -/
def sampleEvent : RawLog :=
  { user_id := 1, action := "read", timestamp := some 600
    department := some "HR", user_department := none }

/-- Identity stand-in for the fitted scaler statistics. -/
def fitScalerId : FeatureFrame → (List ℚ → List ℚ) := fun _ => fun x => x

/-- Constant stand-in for the fitted forest. -/
def fitForestZero : List (List ℚ) → ((List ℚ → ℚ) × (List ℚ → Bool)) :=
  fun _ => (fun _ => 0, fun _ => false)

/-- Ten well-formed training rows, all with action read. -/
def trainLogs10 : List RawLog :=
  (List.range 10).map (fun i =>
    { user_id := i, action := "read", timestamp := some (60 * i)
      department := some "HR", user_department := some "HR" })

/-- Detector state fitted on trainLogs10 (training vocabulary: read only). -/
def fittedOnReads : DetectorState :=
  (train fitScalerId fitForestZero freshDetector trainLogs10).1

/-- An inference event whose action lies outside the training vocabulary of
fittedOnReads. -/
def unseenActionEvent : RawLog :=
  { user_id := 1, action := "frobnicate", timestamp := some 600
    department := some "HR", user_department := none }

/-- A hand-written fitted model whose training vocabulary is the single
action read. -/
def constModel : TrainedModel :=
  { featureCols := featureBaseCols ++ ["action_read"]
    scale := fun x => x
    decision := fun _ => 0
    isOutlier := fun _ => false }

/-- A detector state already fitted with constModel. -/
def constTrainedState : DetectorState :=
  { trained := some constModel, persisted := none }

/-! ## Helper lemmas -/

/-- The anomaly-score transform never goes below 0. -/
theorem riskTransform_nonneg (d : ℚ) : 0 ≤ riskTransform d :=
  le_max_left 0 _

/-- The anomaly-score transform never exceeds 1. -/
theorem riskTransform_le_one (d : ℚ) : riskTransform d ≤ 1 :=
  max_le (by norm_num) (min_le_left 1 _)

/-- The bulk risk contribution restated through the detection flag. -/
theorem bulk_risk_score_eq (db : DB) (uid now w : Nat) :
    (detect_bulk_operations db uid now w).risk_score
      = if (detect_bulk_operations db uid now w).bulk_detected then (0.8 : ℚ) else 0 := by
  cases h : (bulkHits db uid now w).isEmpty <;>
    simp [detect_bulk_operations, h]

/-- The aggregate score of a risk report, written as the additive formula of
the specification. -/
theorem report_score_eq (db : DB) (uid now : Nat) :
    (generate_risk_report db uid now).overall_risk_score
      = min 1
        ((if (detect_bulk_operations db uid now 30).bulk_detected then (0.8 : ℚ) else 0)
          + ((check_department_access_violations db uid).length : ℚ) * (0.2 : ℚ)
          + (if (0.5 : ℚ) < baselineAvgRisk (get_user_behavior_baseline db uid)
              then (0.3 : ℚ) else 0)) := by
  have hb := bulk_risk_score_eq db uid now 30
  cases hv : check_department_access_violations db uid with
  | nil =>
    cases hd : (detect_bulk_operations db uid now 30).bulk_detected <;>
      simp [generate_risk_report, hv, hb, hd]
  | cons a l =>
    cases hd : (detect_bulk_operations db uid now 30).bulk_detected <;>
      simp [generate_risk_report, hv, hb, hd]

/-- The factor list of a risk report, in the order the aggregator appends. -/
theorem report_factors_eq (db : DB) (uid now : Nat) :
    (generate_risk_report db uid now).risk_factors
      = (if (detect_bulk_operations db uid now 30).bulk_detected
          then (detect_bulk_operations db uid now 30).risk_factors else [])
        ++ (if (check_department_access_violations db uid).isEmpty then []
          else [toString (check_department_access_violations db uid).length
            ++ " cross-department access violations"])
        ++ (if (0.5 : ℚ) < baselineAvgRisk (get_user_behavior_baseline db uid)
          then ["Consistently high individual risk scores"] else []) := rfl

/-- Each additive contribution of the aggregate is nonnegative, hence so is
the capped sum. -/
theorem report_score_nonneg (db : DB) (uid now : Nat) :
    0 ≤ (generate_risk_report db uid now).overall_risk_score := by
  rw [report_score_eq]
  have h1 : (0 : ℚ) ≤
      (if (detect_bulk_operations db uid now 30).bulk_detected then (0.8 : ℚ) else 0) := by
    split <;> norm_num
  have h2 : (0 : ℚ) ≤ ((check_department_access_violations db uid).length : ℚ) * (0.2 : ℚ) := by
    positivity
  have h3 : (0 : ℚ) ≤
      (if (0.5 : ℚ) < baselineAvgRisk (get_user_behavior_baseline db uid)
        then (0.3 : ℚ) else 0) := by
    split <;> norm_num
  have : (0 : ℚ) ≤ 1 := by norm_num
  exact le_min this (by linarith)

/-- Any risk score a successful prediction returns lies in the unit
interval: it is either the untrained or empty-frame neutral 0, or the output
of the clamped transform. -/
theorem predict_ok_bounds (s : DetectorState) (log : RawLog) (b : Bool) (r : ℚ)
    (h : (predict_anomaly s log).2 = Except.ok (b, r)) : 0 ≤ r ∧ r ≤ 1 := by
  cases hst : s.trained with
  | none =>
    cases hp : s.persisted with
    | none =>
      simp [predict_anomaly, load_models, hst, hp] at h
      simp [← h.2]
    | some m =>
      simp only [predict_anomaly, load_models, hst, hp] at h
      split at h
      · simp at h
        simp [← h.2]
      · split at h
        · simp at h
          rw [← h.2]
          exact ⟨riskTransform_nonneg _, riskTransform_le_one _⟩
        · simp at h
  | some m =>
    simp only [predict_anomaly, load_models, hst] at h
    split at h
    · simp at h
      simp [← h.2]
    · split at h
      · simp at h
        rw [← h.2]
        exact ⟨riskTransform_nonneg _, riskTransform_le_one _⟩
      · simp at h

/-- The feature frame of a single parseable event: the base columns plus the
indicator column of its own action, and one row whose indicator is 1. -/
theorem prepare_features_single (log : RawLog) (t : Nat) (ht : log.timestamp = some t) :
    prepare_features [log] =
      { cols := featureBaseCols ++ ["action_" ++ log.action]
        rows := [[(log.user_id : ℚ), (hourOf t : ℚ), (dowOf t : ℚ), deptMismatch log, 1]] } := by
  simp [prepare_features, ht, uniqueFirst]

/-- When every attempt hits the locked error, the loop sleeps twice, appends
the fallback line once, and re-raises the locked error. -/
theorem runWrite_allLocked (attempts : Nat → DbAttempt) (line : String)
    (h : ∀ k, attempts k = DbAttempt.locked) :
    runWrite attempts line =
      { result := Except.error "database is locked"
        sleeps := [(0.1 : ℚ) * 2 ^ 0, (0.1 : ℚ) * 2 ^ 1]
        fallbackLines := [line] } := by
  simp [runWrite, runWriteLoop, h 0, h 1, h 2]

/-- The loop never sleeps more than twice, and the delays it does sleep are
the exponential-backoff prefix 0.1, 0.2. -/
theorem runWrite_sleeps_cases (attempts : Nat → DbAttempt) (line : String) :
    (runWrite attempts line).sleeps = [] ∨
    (runWrite attempts line).sleeps = [(0.1 : ℚ)] ∨
    (runWrite attempts line).sleeps = [(0.1 : ℚ), (0.2 : ℚ)] := by
  unfold runWrite runWriteLoop
  rcases h0 : attempts 0 with i0 | _ | m0
  · left
    simp [h0]
  · rcases h1 : attempts 1 with i1 | _ | m1
    · right; left
      simp [runWriteLoop, h0, h1]
    · rcases h2 : attempts 2 with i2 | _ | m2 <;>
        (right; right; simp [runWriteLoop, h0, h1, h2]; norm_num)
    · right; left
      simp [runWriteLoop, h0, h1]
  · left
    simp [h0]

/-! ## Claims -/

/-- Claim C1, counterexample: the claim places unauthorized_access in the
critical tier for every score, but the code classifies an
unauthorized_access alert with risk score 0.1 as high, which is not
critical. -/
theorem C1_severity_counterexample :
    severity "unauthorized_access" (0.1 : ℚ) = Severity.high
      ∧ Severity.high ≠ Severity.critical := by
  refine ⟨?_, by decide⟩
  simp [severity]
  norm_num

/-- Claim C1 (amended): severity is a total deterministic function of alert
type and risk score with first-matching-tier-wins ordering, where the
critical tier is data_leak_attempt or data_sabotage_attempt or score at
least 0.8, the high tier is document_tampering or unauthorized_access or
score at least 0.6, the medium tier is score at least 0.4, and low
otherwise; in particular an unauthorized_access alert at score 0.1 is
high. -/
theorem C1_severity_amended (t : String) (r : ℚ) :
    ((t = "data_leak_attempt" ∨ t = "data_sabotage_attempt" ∨ (0.8 : ℚ) ≤ r) →
      severity t r = Severity.critical)
    ∧ (¬(t = "data_leak_attempt" ∨ t = "data_sabotage_attempt" ∨ (0.8 : ℚ) ≤ r) →
        (t = "document_tampering" ∨ t = "unauthorized_access" ∨ (0.6 : ℚ) ≤ r) →
        severity t r = Severity.high)
    ∧ (¬(t = "data_leak_attempt" ∨ t = "data_sabotage_attempt" ∨ (0.8 : ℚ) ≤ r) →
        ¬(t = "document_tampering" ∨ t = "unauthorized_access" ∨ (0.6 : ℚ) ≤ r) →
        (0.4 : ℚ) ≤ r → severity t r = Severity.medium)
    ∧ (¬(t = "data_leak_attempt" ∨ t = "data_sabotage_attempt" ∨ (0.8 : ℚ) ≤ r) →
        ¬(t = "document_tampering" ∨ t = "unauthorized_access" ∨ (0.6 : ℚ) ≤ r) →
        r < (0.4 : ℚ) → severity t r = Severity.low)
    ∧ severity "unauthorized_access" (0.1 : ℚ) = Severity.high := by
  refine ⟨?_, ?_, ?_, ?_, ?_⟩
  · intro h
    rw [severity, if_pos h]
  · intro h1 h2
    rw [severity, if_neg h1, if_pos h2]
  · intro h1 h2 h3
    rw [severity, if_neg h1, if_neg h2, if_pos h3]
  · intro h1 h2 h3
    rw [severity, if_neg h1, if_neg h2, if_neg (not_le.mpr h3)]
  · simp [severity]
    norm_num

/-- Claim C1, witness: a data_leak_attempt alert at score 0 is critical. -/
theorem C1_severity_amended_witness :
    severity "data_leak_attempt" (0 : ℚ) = Severity.critical :=
  (C1_severity_amended "data_leak_attempt" 0).1 (Or.inl rfl)

/-- Claim C2: overall_risk_score is additive with a final cap, 0.8 on bulk
detection plus 0.2 per cross-department violation plus a flat 0.3 when the
baseline average historical risk score exceeds 0.5; in the scenario with
baseline average 0.6 and neither bulk nor violations, the score is exactly
0.3 and the factor list is the single consistently-high-risk string. -/
theorem C2_risk_aggregation (db : DB) (uid now : Nat)
    (hbulk : (detect_bulk_operations db uid now 30).bulk_detected = false)
    (hviol : check_department_access_violations db uid = [])
    (havg : baselineAvgRisk (get_user_behavior_baseline db uid) = (0.6 : ℚ)) :
    (∀ (db2 : DB) (u2 n2 : Nat),
      (generate_risk_report db2 u2 n2).overall_risk_score
        = min 1
          ((if (detect_bulk_operations db2 u2 n2 30).bulk_detected then (0.8 : ℚ) else 0)
            + ((check_department_access_violations db2 u2).length : ℚ) * (0.2 : ℚ)
            + (if (0.5 : ℚ) < baselineAvgRisk (get_user_behavior_baseline db2 u2)
                then (0.3 : ℚ) else 0)))
    ∧ (generate_risk_report db uid now).overall_risk_score = (0.3 : ℚ)
    ∧ (generate_risk_report db uid now).risk_factors
        = ["Consistently high individual risk scores"] := by
  refine ⟨fun db2 u2 n2 => report_score_eq db2 u2 n2, ?_, ?_⟩
  · rw [report_score_eq]
    simp [hbulk, hviol, havg]
    norm_num [min_def]
  · rw [report_factors_eq]
    simp [hbulk, hviol, havg]
    norm_num

/-- Claim C2, witness: the scenario instantiated on a store whose two rows
of user 1 average risk 0.6, far outside the bulk window, with no document
joins. -/
theorem C2_risk_aggregation_witness :
    (generate_risk_report dbAgg 1 100000).overall_risk_score = (0.3 : ℚ)
      ∧ (generate_risk_report dbAgg 1 100000).risk_factors
        = ["Consistently high individual risk scores"] := by
  have havg : baselineAvgRisk (get_user_behavior_baseline dbAgg 1) = (0.6 : ℚ) := by
    norm_num [baselineAvgRisk, get_user_behavior_baseline, dbAgg, mkLog,
      sortByTimestampDesc, insertDesc, uniqueFirst, countOccs, groupCounts,
      modeHours, sortAsc, insertAsc, sortByCountDesc, insertByCountDesc,
      hourOf, dateOf, istShift, dowOf, List.foldr, List.foldl, List.filter,
      List.sum]
  have h := C2_risk_aggregation dbAgg 1 100000 (by decide) (by decide) havg
  exact ⟨h.2.1, h.2.2⟩

/-- Claim C3: every risk score any component produces lies in the unit
interval: the anomaly-score transform, any score a successful prediction
returns, the bulk-detector contribution, and the aggregate score. -/
theorem C3_risk_bounds :
    (∀ d : ℚ, 0 ≤ riskTransform d ∧ riskTransform d ≤ 1)
    ∧ (∀ (s : DetectorState) (log : RawLog) (b : Bool) (r : ℚ),
        (predict_anomaly s log).2 = Except.ok (b, r) → 0 ≤ r ∧ r ≤ 1)
    ∧ (∀ (db : DB) (uid now w : Nat),
        0 ≤ (detect_bulk_operations db uid now w).risk_score
          ∧ (detect_bulk_operations db uid now w).risk_score ≤ 1)
    ∧ (∀ (db : DB) (uid now : Nat),
        0 ≤ (generate_risk_report db uid now).overall_risk_score
          ∧ (generate_risk_report db uid now).overall_risk_score ≤ 1) := by
  refine ⟨fun d => ⟨riskTransform_nonneg d, riskTransform_le_one d⟩,
    predict_ok_bounds, ?_, ?_⟩
  · intro db uid now w
    have h : (detect_bulk_operations db uid now w).risk_score
        = if (bulkHits db uid now w).isEmpty then 0 else (0.8 : ℚ) := rfl
    rw [h]
    constructor <;> (split <;> norm_num)
  · intro db uid now
    refine ⟨report_score_nonneg db uid now, ?_⟩
    rw [report_score_eq]
    exact min_le_left 1 _

/-- Claim C3, witness: the bound applied to the prediction of the fresh
detector on a sample event, whose score is 0. -/
theorem C3_risk_bounds_witness : (0 : ℚ) ≤ 0 ∧ (0 : ℚ) ≤ 1 :=
  C3_risk_bounds.2.1 freshDetector sampleEvent false 0 rfl

/-- Claim C4: on a never-trained detector with no restorable artifacts,
predict_anomaly returns exactly (false, 0) for every event, leaving the
state untouched, raising nothing, marking nothing anomalous. -/
theorem C4_untrained_predict (s : DetectorState) (log : RawLog)
    (h1 : s.trained = none) (h2 : s.persisted = none) :
    predict_anomaly s log = (s, Except.ok (false, 0)) := by
  simp [predict_anomaly, load_models, h1, h2]

/-- Claim C4, witness: the fresh detector on a sample event. -/
theorem C4_untrained_predict_witness :
    predict_anomaly freshDetector sampleEvent = (freshDetector, Except.ok (false, 0)) :=
  C4_untrained_predict freshDetector sampleEvent rfl rfl

/-- Claim C5: training on a corpus yielding fewer than 10 feature rows after
extraction is a no-op that leaves the whole detector state (fitted flag,
model and scaler parameters) unchanged and signals insufficient data instead
of raising. -/
theorem C5_insufficient_training (fitScaler : FeatureFrame → (List ℚ → List ℚ))
    (fitForest : List (List ℚ) → ((List ℚ → ℚ) × (List ℚ → Bool)))
    (s : DetectorState) (logs : List RawLog)
    (h : (prepare_features logs).rows.length < 10) :
    train fitScaler fitForest s logs = (s, TrainOutcome.insufficientData) := by
  unfold train
  rw [if_pos (Or.inr h)]

/-- Claim C5, witness: training on the empty corpus. -/
theorem C5_insufficient_training_witness :
    train fitScalerId fitForestZero freshDetector [] =
      (freshDetector, TrainOutcome.insufficientData) :=
  C5_insufficient_training fitScalerId fitForestZero freshDetector [] (by decide)

/-- Claim C6: the claim (and the spec) say 25 read events inside the
trailing 30-minute window must set bulk_detected with the factor string,
but the query compares the space-separated stored timestamp strings against
the T-separated isoformat bind value as text, so every in-window row on the
same calendar day as the window start fails the comparison: the code
returns no activities and no detection there, and fires only when the row
date string exceeds the window-start date string, as across a midnight. -/
theorem C6_bulk_window_bug :
    (detect_bulk_operations dbReads25 1 10000 30).bulk_detected = false
    ∧ (detect_bulk_operations dbReads25 1 10000 30).activities = []
    ∧ (detect_bulk_operations dbReads25 1 10000 30).risk_score = 0
    ∧ strLe (isoTimestampString 9970) (storedTimestampString 9990) = false
    ∧ (detect_bulk_operations dbReadsMidnight 1 10090 30).bulk_detected = true
    ∧ (detect_bulk_operations dbReadsMidnight 1 10090 30).risk_factors
        = ["25 read operations in 30 minutes"] := by
  exact ⟨by decide, by decide, by decide, by decide, by decide, by decide⟩

/-- Claim C7, counterexample: the claim promises all-zero indicators and a
successful prediction for actions outside the training vocabulary, but on a
detector fitted on read events a frobnicate event gets an indicator column
of its own and the prediction raises the scaler feature-name mismatch
instead of succeeding. -/
theorem C7_unseen_action_counterexample :
    (predict_anomaly fittedOnReads unseenActionEvent).2
        = Except.error featureMismatchMsg
    ∧ (prepare_features [unseenActionEvent]).cols
        = featureBaseCols ++ ["action_frobnicate"]
    ∧ fittedOnReads.trained.isSome = true := by
  exact ⟨rfl, by decide, rfl⟩

/-- Claim C7 (amended): at inference time prepare_features builds the action
indicator columns from the event itself, so an action outside the fitted
vocabulary yields a feature frame whose columns differ from the fitted ones
and the prediction raises the scaler feature-name mismatch error rather
than succeeding with zero indicators. -/
theorem C7_unseen_action_amended (s : DetectorState) (m : TrainedModel)
    (log : RawLog) (t : Nat)
    (hm : s.trained = some m) (ht : log.timestamp = some t)
    (hv : ("action_" ++ log.action) ∉ m.featureCols) :
    (predict_anomaly s log).2 = Except.error featureMismatchMsg := by
  have hne : featureBaseCols ++ ["action_" ++ log.action] ≠ m.featureCols := by
    intro he
    exact hv (he ▸ List.mem_append.mpr (Or.inr (List.mem_singleton.mpr rfl)))
  simp [predict_anomaly, hm, prepare_features_single log t ht, hne]

/-- Claim C7, witness: a hand-fitted model whose vocabulary is read,
predicting on a frobnicate event. -/
theorem C7_unseen_action_amended_witness :
    (predict_anomaly constTrainedState unseenActionEvent).2
      = Except.error featureMismatchMsg :=
  C7_unseen_action_amended constTrainedState constModel unseenActionEvent 600
    rfl rfl (by decide)

/-- Claim C8, counterexample: two calls of generate_risk_report on the same
store at distinct instants differ, because the report embeds the generation
instant; so the report is not a pure function of the stored state alone. -/
theorem C8_report_counterexample :
    generate_risk_report dbAgg 1 1000 ≠ generate_risk_report dbAgg 1 1001 := by
  intro h
  have ht := congrArg RiskReport.timestamp h
  simp [generate_risk_report] at ht

/-- Claim C8 (amended): with the stored state fixed, two report calls agree
on every field except the embedded generation timestamp, provided the bulk
detector sees the same trailing-window contents at both instants; the
report is a pure function of the stored state and the call instant. -/
theorem C8_report_amended (db : DB) (uid t1 t2 : Nat)
    (hb : detect_bulk_operations db uid t1 30 = detect_bulk_operations db uid t2 30) :
    (generate_risk_report db uid t1).user_id = (generate_risk_report db uid t2).user_id
    ∧ (generate_risk_report db uid t1).overall_risk_score
        = (generate_risk_report db uid t2).overall_risk_score
    ∧ (generate_risk_report db uid t1).risk_factors
        = (generate_risk_report db uid t2).risk_factors
    ∧ (generate_risk_report db uid t1).baseline = (generate_risk_report db uid t2).baseline
    ∧ (generate_risk_report db uid t1).bulk_operations
        = (generate_risk_report db uid t2).bulk_operations
    ∧ (generate_risk_report db uid t1).department_violations
        = (generate_risk_report db uid t2).department_violations := by
  refine ⟨rfl, ?_, ?_, rfl, ?_, rfl⟩
  · unfold generate_risk_report
    rw [hb]
  · unfold generate_risk_report
    rw [hb]
  · unfold generate_risk_report
    rw [hb]

/-- Claim C8, witness: two instants far past the last stored row, whose
bulk windows are both empty. -/
theorem C8_report_amended_witness :
    (generate_risk_report dbAgg 1 100000).overall_risk_score
      = (generate_risk_report dbAgg 1 100001).overall_risk_score :=
  (C8_report_amended dbAgg 1 100000 100001 (by decide)).2.1

/-- Claim C9, counterexample: when every attempt hits write contention, the
alert write path appends its fallback line and then re-raises the locked
error, so the failure does reach the caller, contrary to the claim that it
never raises. -/
theorem C9_write_counterexample :
    (create_alert_write alwaysLocked 1 "data_leak_attempt" "alert" 2000).result
        = Except.error "database is locked"
    ∧ (create_alert_write alwaysLocked 1 "data_leak_attempt" "alert" 2000).fallbackLines
        = [createAlertFallbackLine 2000 1 "data_leak_attempt" "alert"] := ⟨rfl, rfl⟩

/-- Claim C9 (amended): both write paths retry at most three attempts with
exponential backoff delays 0.1 then 0.2 on contention, and once retries are
exhausted they append one line to the local fallback log and re-raise the
locked error to the caller instead of swallowing it. -/
theorem C9_write_amended (attempts : Nat → DbAttempt) (uid : Nat)
    (action docName alertType desc : String) (now : Nat) :
    ((log_access_write attempts uid action docName now).sleeps = []
      ∨ (log_access_write attempts uid action docName now).sleeps = [(0.1 : ℚ)]
      ∨ (log_access_write attempts uid action docName now).sleeps = [(0.1 : ℚ), (0.2 : ℚ)])
    ∧ ((create_alert_write attempts uid alertType desc now).sleeps = []
      ∨ (create_alert_write attempts uid alertType desc now).sleeps = [(0.1 : ℚ)]
      ∨ (create_alert_write attempts uid alertType desc now).sleeps = [(0.1 : ℚ), (0.2 : ℚ)])
    ∧ ((∀ k, attempts k = DbAttempt.locked) →
        log_access_write attempts uid action docName now =
          { result := Except.error "database is locked"
            sleeps := [(0.1 : ℚ), (0.2 : ℚ)]
            fallbackLines := [logAccessFallbackLine now uid action docName] }
        ∧ create_alert_write attempts uid alertType desc now =
          { result := Except.error "database is locked"
            sleeps := [(0.1 : ℚ), (0.2 : ℚ)]
            fallbackLines := [createAlertFallbackLine now uid alertType desc] }) := by
  refine ⟨runWrite_sleeps_cases attempts _, runWrite_sleeps_cases attempts _,
    fun h => ⟨?_, ?_⟩⟩
  · rw [log_access_write, runWrite_allLocked attempts _ h]
    norm_num [WriteOutcome.mk.injEq]
  · rw [create_alert_write, runWrite_allLocked attempts _ h]
    norm_num [WriteOutcome.mk.injEq]

/-- Claim C9, witness: the amended behavior on the all-locked contention
trace. -/
theorem C9_write_amended_witness :
    log_access_write alwaysLocked 7 "read" "file" 3000 =
      { result := Except.error "database is locked"
        sleeps := [(0.1 : ℚ), (0.2 : ℚ)]
        fallbackLines := [logAccessFallbackLine 3000 7 "read" "file"] }
    ∧ create_alert_write alwaysLocked 7 "data_leak_attempt" "alert" 3000 =
      { result := Except.error "database is locked"
        sleeps := [(0.1 : ℚ), (0.2 : ℚ)]
        fallbackLines := [createAlertFallbackLine 3000 7 "data_leak_attempt" "alert"] } :=
  (C9_write_amended alwaysLocked 7 "read" "file" "data_leak_attempt" "alert" 3000).2.2
    (fun _ => rfl)

/-- Claim C10: whenever the store holds fewer than 50 joined recent rows,
analyze_access_pattern returns score 0 with the detector untouched,
regardless of the event and of any trained model. -/
theorem C10_low_data_neutral (fitScaler : FeatureFrame → (List ℚ → List ℚ))
    (fitForest : List (List ℚ) → ((List ℚ → ℚ) × (List ℚ → Bool)))
    (db : DB) (s : DetectorState) (uid : Nat) (action : String)
    (department : Option String) (now : Nat)
    (h : (get_access_logs db 1000).length < 50) :
    analyze_access_pattern fitScaler fitForest db s uid action department now
      = (s, Except.ok 0) := by
  unfold analyze_access_pattern
  rw [if_pos h]

/-- Claim C10, witness: the empty store. -/
theorem C10_low_data_neutral_witness :
    analyze_access_pattern fitScalerId fitForestZero emptyDB freshDetector 1
      "read" none 0 = (freshDetector, Except.ok 0) :=
  C10_low_data_neutral fitScalerId fitForestZero emptyDB freshDetector 1
    "read" none 0 (by decide)

end DataGuard
